import Mathlib

/-!
Verification development for the mapbox-babylonjs overlay.

We give a shallow embedding of the georeferencing utilities
(`src/src/RolandCsibrei_babylonjs-maps-gl/mapbox/util.ts`) and of the
overlay lifecycle controller (`MapboxWebGLCustomLayer` in
`src/src/main.ts`), together with the Babylon.js math primitives the
code calls into (Vector3, Quaternion, Matrix from
`@babylonjs/core/Maths/math.vector`), and prove the specified
properties about them.

JavaScript IEEE-754 doubles are embedded as real numbers; all formulas
are transcribed operation-for-operation from the source.  Side effects
(scene render passes, cache wipes, repaint triggers, console warnings)
are modelled as an explicit effect list, and JavaScript exceptions
(property access on `undefined`) as `Except`.
-/

noncomputable section

namespace MapboxBabylon

/-- Babylon.js `Vector3`: three double components. -/
@[ext]
structure Vector3 where
  x : ℝ
  y : ℝ
  z : ℝ

namespace Vector3

/-- Babylon.js `Vector3.scaleInPlace`: multiply each component by a scalar. -/
def scaleInPlace (v : Vector3) (s : ℝ) : Vector3 :=
  ⟨v.x * s, v.y * s, v.z * s⟩

/-- Babylon.js `Vector3.length`: `sqrt(x*x + y*y + z*z)`. -/
def length (v : Vector3) : ℝ :=
  Real.sqrt (v.x * v.x + v.y * v.y + v.z * v.z)

/-- Babylon.js `Vector3.normalize` (`normalizeFromLength`): scales by the
reciprocal length.  The JS code returns the vector unchanged when the length
is 0 or 1; over the reals a length of 0 forces the vector to be 0 and scaling
by `1/0 = 0` again gives 0, and scaling by `1/1` is the identity, so the
branchless form agrees with the JS code on every input. -/
def normalize (v : Vector3) : Vector3 :=
  v.scaleInPlace (1 / v.length)

/-- Babylon.js `Vector3.Dot`. -/
def Dot (a b : Vector3) : ℝ :=
  a.x * b.x + a.y * b.y + a.z * b.z

/-- Babylon.js `Vector3.CrossToRef`: left-handed cross product formula
`(l.y*r.z - l.z*r.y, l.z*r.x - l.x*r.z, l.x*r.y - l.y*r.x)`. -/
def Cross (left right : Vector3) : Vector3 :=
  ⟨left.y * right.z - left.z * right.y,
   left.z * right.x - left.x * right.z,
   left.x * right.y - left.y * right.x⟩

/-- Babylon.js `Vector3.multiplyInPlace`: componentwise product. -/
def multiplyInPlace (a b : Vector3) : Vector3 :=
  ⟨a.x * b.x, a.y * b.y, a.z * b.z⟩

end Vector3

/-- Babylon.js `Quaternion`: four double components. -/
@[ext]
structure Quaternion where
  x : ℝ
  y : ℝ
  z : ℝ
  w : ℝ

namespace Quaternion

/-- Babylon.js `Quaternion.lengthSquared`. -/
def lengthSquared (q : Quaternion) : ℝ :=
  q.x * q.x + q.y * q.y + q.z * q.z + q.w * q.w

/-- Babylon.js `Quaternion.length`. -/
def length (q : Quaternion) : ℝ :=
  Real.sqrt q.lengthSquared

/-- Babylon.js `Quaternion.scaleInPlace`. -/
def scale (q : Quaternion) (s : ℝ) : Quaternion :=
  ⟨q.x * s, q.y * s, q.z * s, q.w * s⟩

/-- Babylon.js `Quaternion.normalize`: scales by the reciprocal length.
As for `Vector3.normalize`, the zero-length guard of the JS code coincides
with scaling by `1/0 = 0` over the reals. -/
def normalize (q : Quaternion) : Quaternion :=
  q.scale (1 / q.length)

/-- Babylon.js `Quaternion.conjugateInPlace`: negate the vector part. -/
def conjugate (q : Quaternion) : Quaternion :=
  ⟨-q.x, -q.y, -q.z, q.w⟩

/-- Babylon.js `Quaternion.invert`: conjugate, then divide by the squared
length (the JS code skips the division when the squared length is 0 or 1;
dividing by 1 is the identity and in the 0 case the quaternion is the zero
quaternion, which is fixed by any scaling, so the branchless form agrees
with the JS code on every input). -/
def invert (q : Quaternion) : Quaternion :=
  q.conjugate.scale (1 / q.conjugate.lengthSquared)

/-- Babylon.js `Epsilon` constant (`Maths/math.constants`). -/
def Epsilon : ℝ := 0.001

/-- Babylon.js `Quaternion.FromUnitVectorsToRef` with the default epsilon:
half-way quaternion between two unit direction vectors, normalized. -/
def FromUnitVectors (vecFrom vecTo : Vector3) : Quaternion :=
  let r := Vector3.Dot vecFrom vecTo + 1
  if r < Epsilon then
    (if |vecFrom.x| > |vecFrom.z| then
      (⟨-vecFrom.y, vecFrom.x, 0, 0⟩ : Quaternion)
    else
      (⟨0, -vecFrom.z, vecFrom.y, 0⟩ : Quaternion)).normalize
  else
    (let c := Vector3.Cross vecFrom vecTo
     (⟨c.x, c.y, c.z, r⟩ : Quaternion)).normalize

/-- Babylon.js `Quaternion.RotationYawPitchRollToRef` (z-y-x Tait-Bryan). -/
def RotationYawPitchRoll (yaw pitch roll : ℝ) : Quaternion :=
  let halfRoll := roll * 0.5
  let halfPitch := pitch * 0.5
  let halfYaw := yaw * 0.5
  let sinRoll := Real.sin halfRoll
  let cosRoll := Real.cos halfRoll
  let sinPitch := Real.sin halfPitch
  let cosPitch := Real.cos halfPitch
  let sinYaw := Real.sin halfYaw
  let cosYaw := Real.cos halfYaw
  ⟨cosYaw * sinPitch * cosRoll + sinYaw * cosPitch * sinRoll,
   sinYaw * cosPitch * cosRoll - cosYaw * sinPitch * sinRoll,
   cosYaw * cosPitch * sinRoll - sinYaw * sinPitch * cosRoll,
   cosYaw * cosPitch * cosRoll + sinYaw * sinPitch * sinRoll⟩

end Quaternion

/-- JavaScript `Math.atan2(y, x)`. -/
def jsAtan2 (y x : ℝ) : ℝ :=
  if 0 < x then Real.arctan (y / x)
  else if x < 0 then
    (if 0 ≤ y then Real.arctan (y / x) + Real.pi
     else Real.arctan (y / x) - Real.pi)
  else
    (if 0 < y then Real.pi / 2 else if y < 0 then -(Real.pi / 2) else 0)

namespace Quaternion

/-- Babylon.js `Quaternion.toEulerAnglesToRef`. -/
def toEulerAngles (q : Quaternion) : Vector3 :=
  let qz := q.z
  let qx := q.x
  let qy := q.y
  let qw := q.w
  let zAxisY := qy * qz - qx * qw
  let limit : ℝ := 0.4999999
  if zAxisY < -limit then
    ⟨Real.pi / 2, 2 * jsAtan2 qy qw, 0⟩
  else if zAxisY > limit then
    ⟨-(Real.pi / 2), 2 * jsAtan2 qy qw, 0⟩
  else
    let sqw := qw * qw
    let sqz := qz * qz
    let sqx := qx * qx
    let sqy := qy * qy
    ⟨Real.arcsin (-2.0 * (qz * qy - qx * qw)),
     jsAtan2 (2.0 * (qz * qx + qy * qw)) (sqz - sqx - sqy + sqw),
     jsAtan2 (2.0 * (qx * qy + qz * qw)) (-sqz - sqx + sqy + sqw)⟩

end Quaternion

namespace Vector3

/-- Babylon.js `Vector3.applyRotationQuaternionToRef`:
`v + 2w (q x v) + 2 q x (q x v)` on the vector part of `q`. -/
def applyRotationQuaternion (v : Vector3) (q : Quaternion) : Vector3 :=
  let tx := 2 * (q.y * v.z - q.z * v.y)
  let ty := 2 * (q.z * v.x - q.x * v.z)
  let tz := 2 * (q.x * v.y - q.y * v.x)
  ⟨v.x + q.w * tx + q.y * tz - q.z * ty,
   v.y + q.w * ty + q.z * tx - q.x * tz,
   v.z + q.w * tz + q.x * ty - q.y * tx⟩

end Vector3

/-- Babylon.js `Matrix`: 16 doubles in row-major storage, translation in
entries 12..14 (the layout `Matrix.FromArray` copies verbatim). -/
abbrev Matrix := Fin 16 → ℝ

namespace Matrix

/-- Babylon.js `Matrix.FromArray` with offset 0: copies the 16 host-supplied
entries verbatim (the source additionally re-points the internal `_m` array
at the host array, which holds the same 16 values). -/
def FromArray (array : Fin 16 → ℝ) : Matrix :=
  fun i => array i

/-- Babylon.js `Matrix.multiplyToArrayToRef`: entrywise transcription of
`result[4i+j] = sum_k this[4i+k] * other[4k+j]`. -/
def multiply (m other : Matrix) : Matrix :=
  ![m 0 * other 0 + m 1 * other 4 + m 2 * other 8 + m 3 * other 12,
    m 0 * other 1 + m 1 * other 5 + m 2 * other 9 + m 3 * other 13,
    m 0 * other 2 + m 1 * other 6 + m 2 * other 10 + m 3 * other 14,
    m 0 * other 3 + m 1 * other 7 + m 2 * other 11 + m 3 * other 15,
    m 4 * other 0 + m 5 * other 4 + m 6 * other 8 + m 7 * other 12,
    m 4 * other 1 + m 5 * other 5 + m 6 * other 9 + m 7 * other 13,
    m 4 * other 2 + m 5 * other 6 + m 6 * other 10 + m 7 * other 14,
    m 4 * other 3 + m 5 * other 7 + m 6 * other 11 + m 7 * other 15,
    m 8 * other 0 + m 9 * other 4 + m 10 * other 8 + m 11 * other 12,
    m 8 * other 1 + m 9 * other 5 + m 10 * other 9 + m 11 * other 13,
    m 8 * other 2 + m 9 * other 6 + m 10 * other 10 + m 11 * other 14,
    m 8 * other 3 + m 9 * other 7 + m 10 * other 11 + m 11 * other 15,
    m 12 * other 0 + m 13 * other 4 + m 14 * other 8 + m 15 * other 12,
    m 12 * other 1 + m 13 * other 5 + m 14 * other 9 + m 15 * other 13,
    m 12 * other 2 + m 13 * other 6 + m 14 * other 10 + m 15 * other 14,
    m 12 * other 3 + m 13 * other 7 + m 14 * other 11 + m 15 * other 15]

/-- Babylon.js `Matrix.ComposeToRef`: builds the scale-rotate-translate
world matrix from a scale vector, a rotation quaternion and a translation
vector, entry for entry as in the source. -/
def Compose (scale : Vector3) (rotation : Quaternion) (translation : Vector3) :
    Matrix :=
  let x := rotation.x
  let y := rotation.y
  let z := rotation.z
  let w := rotation.w
  let x2 := x + x
  let y2 := y + y
  let z2 := z + z
  let xx := x * x2
  let xy := x * y2
  let xz := x * z2
  let yy := y * y2
  let yz := y * z2
  let zz := z * z2
  let wx := w * x2
  let wy := w * y2
  let wz := w * z2
  let sx := scale.x
  let sy := scale.y
  let sz := scale.z
  ![(1 - (yy + zz)) * sx,
    (xy + wz) * sx,
    (xz - wy) * sx,
    0,
    (xy - wz) * sy,
    (1 - (xx + zz)) * sy,
    (yz + wx) * sy,
    0,
    (xz + wy) * sz,
    (yz - wx) * sz,
    (1 - (xx + yy)) * sz,
    0,
    translation.x,
    translation.y,
    translation.z,
    1]

end Matrix

/-! Geographic types and the utility functions of `mapbox/util.ts`. -/

/-- `LatLngAltLike` from `mapbox/util.ts`. -/
@[ext]
structure LatLngAltLike where
  lat : ℝ
  lng : ℝ
  altitude : ℝ

/-- `LngLatLike` from `main.ts` (also the shape returned by `xyToLatLng`
and `vector3ToLatLng`). -/
@[ext]
structure LngLatLike where
  lng : ℝ
  lat : ℝ

/-- `EARTH_RADIUS` constant from `mapbox/util.ts`. -/
def EARTH_RADIUS : ℝ := 6371010.0

/-- `WORLD_SIZE` constant from `mapbox/util.ts`. -/
def WORLD_SIZE : ℝ := Real.pi * EARTH_RADIUS

/-- Babylon.js `Tools.ToRadians`: `angle * Math.PI / 180`. -/
def ToRadians (angle : ℝ) : ℝ := angle * Real.pi / 180

/-- Babylon.js `Tools.ToDegrees`: `angle * 180 / Math.PI`. -/
def ToDegrees (angle : ℝ) : ℝ := angle * 180 / Real.pi

/-- `latLngToXY` from `mapbox/util.ts`: spherical-Mercator forward
projection, returned as the pair `(x, y)`. -/
def latLngToXY (position : LatLngAltLike) : ℝ × ℝ :=
  (EARTH_RADIUS * ToRadians position.lng,
   EARTH_RADIUS *
     Real.log (Real.tan (0.25 * Real.pi + 0.5 * ToRadians position.lat)))

/-- `xyToLatLng` from `mapbox/util.ts`: inverse Mercator projection. -/
def xyToLatLng (x y : ℝ) : LngLatLike :=
  { lat := ToDegrees (Real.pi * 0.5 -
      2.0 * Real.arctan (Real.exp (-y / EARTH_RADIUS)))
    lng := ToDegrees x / EARTH_RADIUS }

/-- `latLngToVector3Relative` from `mapbox/util.ts`: forward-project point
and reference, subtract, scale the horizontal components by the cosine of
the reference latitude, and overwrite z with the altitude difference. -/
def latLngToVector3Relative (point reference : LatLngAltLike) : Vector3 :=
  let p := latLngToXY point
  let r := latLngToXY reference
  let target : Vector3 := ⟨p.1 - r.1, p.2 - r.2, 0⟩
  let val := Real.cos (ToRadians reference.lat)
  let target := target.multiplyInPlace ⟨val, val, val⟩
  { target with z := point.altitude - reference.altitude }

/-- `vector3ToLatLng` from `mapbox/util.ts`: small-angle reverse mapping
from renderer-local x/z offsets to geographic coordinates. -/
def vector3ToLatLng (x z : ℝ) (originLatLng : LatLngAltLike) : LngLatLike :=
  let latPerMeter := 1 / ((Real.pi * EARTH_RADIUS) / 180)
  let lngPerMeter := 1 /
    (((Real.pi * EARTH_RADIUS) / 180) *
      Real.cos (originLatLng.lat * (Real.pi / 180)))
  { lat := originLatLng.lat + z * latPerMeter
    lng := originLatLng.lng + x * lngPerMeter }

/-! The overlay lifecycle controller of `main.ts`. -/

/-- `DEFAULT_UP` constant from `main.ts`. -/
def DEFAULT_UP : Vector3 := ⟨0, 1, 0⟩

/-- Mapbox `MercatorCoordinate`: the cached projected anchor position. -/
@[ext]
structure MercatorCoordinate where
  x : ℝ
  y : ℝ
  z : ℝ

/-- Observable operations the overlay performs on its collaborators
(Babylon engine/scene, Mapbox map, console). -/
inductive Effect where
  | sceneRender : Effect
  | wipeCaches : Effect
  | triggerRepaint : Effect
  | consoleWarn : String → Effect
deriving DecidableEq

/-- A JavaScript runtime exception (property access on `undefined`). -/
inductive JsException where
  | typeError : JsException
deriving DecidableEq

/-- The mutable state of a `MapboxWebGLCustomLayer` instance.  The engine,
scene, camera and map handles are `!`-asserted fields in the source that are
`undefined` until assigned, modelled as presence flags; the camera's frozen
projection matrix is the per-frame output of `_render`. -/
structure MapboxWebGLCustomLayer where
  rotationArray : Fin 3 → ℝ
  rotationInverse : Quaternion
  anchor : Option LatLngAltLike
  _scale : ℝ
  _anchorMercatorCoordinate : MercatorCoordinate
  _camera : Bool
  _scene : Bool
  _map : Bool
  frozenProjectionMatrix : Option Matrix

namespace MapboxWebGLCustomLayer

/-- `requestRedraw` from `main.ts`: `this._map.triggerRepaint()`.  There is
no guard in the source: when `_map` is still `undefined` the property access
throws a `TypeError`. -/
def requestRedraw (self : MapboxWebGLCustomLayer) :
    Except JsException (List Effect) :=
  if self._map then Except.ok [Effect.triggerRepaint]
  else Except.error JsException.typeError

/-- `setAnchor` from `main.ts`: assigns `this.anchor` and nothing else. -/
def setAnchor (self : MapboxWebGLCustomLayer) (anchor : LatLngAltLike) :
    MapboxWebGLCustomLayer :=
  { self with anchor := some anchor }

/-- The `"Y" | "Z" | Vector3` argument type of `setUpAxis` (widened to an
arbitrary string, as the spec's error-handling clause considers). -/
inductive UpAxisArg where
  | str : String → UpAxisArg
  | vec : Vector3 → UpAxisArg

/-- JavaScript `String.prototype.toLowerCase` (ASCII-faithful): lower-cases
every character. -/
def toLowerCase (s : String) : String := String.mk (s.data.map Char.toLower)

/-- `setUpAxis` from `main.ts`: picks the up vector (warning on an invalid
string, keeping the default `(0,1,0)`), normalizes it, builds the correction
quaternion with `Quaternion.FromUnitVectorsToRef(upVector, DEFAULT_UP, q)`,
stores its inverse in `rotationInverse`, and stores the Euler angles of `q`
in `rotationArray`.  (The JS warning message wraps the value in single
quotes; we keep the surrounding words.) -/
def setUpAxis (self : MapboxWebGLCustomLayer) (axis : UpAxisArg) :
    MapboxWebGLCustomLayer × List Effect :=
  let upVector : Vector3 :=
    match axis with
    | UpAxisArg.vec v => v
    | UpAxisArg.str a =>
        if toLowerCase a = "z" then ⟨0, 0, 1⟩ else ⟨0, 1, 0⟩
  let warnings : List Effect :=
    match axis with
    | UpAxisArg.vec _ => []
    | UpAxisArg.str a =>
        if toLowerCase a = "z" then []
        else if toLowerCase a = "y" then []
        else [Effect.consoleWarn ("invalid value " ++ a ++
                " specified as upAxis")]
  let upVector := upVector.normalize
  let q := Quaternion.FromUnitVectors upVector DEFAULT_UP
  let euler := q.toEulerAngles
  ({ self with
      rotationInverse := q.invert
      rotationArray := ![euler.x, euler.y, euler.z] },
   warnings)

/-- `latLngAltitudeToVector3Ref` from `main.ts`: anchor-relative conversion
followed by the orientation correction.  The source reads `this.anchor`,
which is `undefined` until `setAnchor` has run; that case throws. -/
def latLngAltitudeToVector3Ref (self : MapboxWebGLCustomLayer)
    (position : LatLngAltLike) : Except JsException Vector3 :=
  match self.anchor with
  | none => Except.error JsException.typeError
  | some a =>
      Except.ok ((latLngToVector3Relative position a).applyRotationQuaternion
        self.rotationInverse)

/-- `_render` from `main.ts`: guarded per-frame camera synchronization.
When camera, scene or map is missing it returns immediately (no state
change, no effects — the guard path performs no fallible operation, so it
cannot throw).  Otherwise it composes the world matrix from the cached
scale, the yaw/negated-pitch/roll rotation of the cached Euler triple and
the cached mercator anchor, multiplies by the host projection matrix,
freezes it into the camera, renders the scene, wipes the engine caches and
triggers a repaint. -/
def _render (self : MapboxWebGLCustomLayer) (matrix : Fin 16 → ℝ) :
    MapboxWebGLCustomLayer × List Effect :=
  if ¬self._camera ∨ ¬self._scene ∨ ¬self._map then (self, [])
  else
    let scale : Vector3 := ⟨self._scale, self._scale, self._scale⟩
    let rotation := Quaternion.RotationYawPitchRoll (self.rotationArray 1)
      (-(self.rotationArray 0)) (self.rotationArray 2)
    let translation : Vector3 := ⟨self._anchorMercatorCoordinate.x,
      self._anchorMercatorCoordinate.y, self._anchorMercatorCoordinate.z⟩
    let world := Matrix.Compose scale rotation translation
    let projection := Matrix.FromArray matrix
    ({ self with
        frozenProjectionMatrix := some (Matrix.multiply world projection) },
     [Effect.sceneRender, Effect.wipeCaches, Effect.triggerRepaint])

end MapboxWebGLCustomLayer

/-! Concrete states used by witnesses and scenario theorems. -/

/-- A freshly constructed overlay state: no engine, scene, camera or map
handle yet, identity orientation correction, no anchor assigned (the
constructor never assigns `this.anchor`). -/
def sampleState : MapboxWebGLCustomLayer where
  rotationArray := ![0, 0, 0]
  rotationInverse := ⟨0, 0, 0, 1⟩
  anchor := none
  _scale := 1
  _anchorMercatorCoordinate := ⟨0, 0, 0⟩
  _camera := false
  _scene := false
  _map := false
  frozenProjectionMatrix := none

/-- An attached overlay state: camera, scene and map handles all present. -/
def attachedState : MapboxWebGLCustomLayer :=
  { sampleState with _camera := true, _scene := true, _map := true }

/-- Scenario instance for the up-axis experiment: a fresh overlay whose
anchor has been set to the null island origin. -/
def upAxisScenarioBase : MapboxWebGLCustomLayer :=
  MapboxWebGLCustomLayer.setAnchor sampleState ⟨0, 0, 0⟩

/-- The scenario instance after `setUpAxis("Z")`. -/
def afterUpAxisZ : MapboxWebGLCustomLayer :=
  (MapboxWebGLCustomLayer.setUpAxis upAxisScenarioBase
    (MapboxWebGLCustomLayer.UpAxisArg.str "Z")).1

/-- The scenario instance after `setUpAxis("Z")` then `setUpAxis("Y")`. -/
def afterUpAxisZY : MapboxWebGLCustomLayer :=
  (MapboxWebGLCustomLayer.setUpAxis afterUpAxisZ
    (MapboxWebGLCustomLayer.UpAxisArg.str "Y")).1

/-- The geographic test point converted under each up-axis setting: the
anchor's lat/lng at altitude 1, whose anchor-relative position is the unit
vertical offset `(0, 0, 1)`. -/
def upAxisTestPoint : LatLngAltLike := ⟨0, 0, 1⟩

namespace MapboxWebGLCustomLayer

/-! ### Theorems -/

/-- C1: whenever the camera, scene and map handles are all present, the
matrix `_render` freezes into the camera equals `world × projection`, where
`world = Matrix.Compose(scale, rotation, translation)` with
`scale = (s, s, s)` from the cached anchor scale factor,
`rotation = RotationYawPitchRoll(euler.y, -euler.x, euler.z)` on the cached
Euler triple, `translation` the cached anchor mercator coordinates, and
`projection` the matrix parsed from the host-supplied 16-element array. -/
theorem render_installs_world_times_projection
    (s : MapboxWebGLCustomLayer) (m : Fin 16 → ℝ)
    (hc : s._camera = true) (hs : s._scene = true) (hm : s._map = true) :
    (_render s m).1.frozenProjectionMatrix =
      some (Matrix.multiply
        (Matrix.Compose ⟨s._scale, s._scale, s._scale⟩
          (Quaternion.RotationYawPitchRoll (s.rotationArray 1)
            (-(s.rotationArray 0)) (s.rotationArray 2))
          ⟨s._anchorMercatorCoordinate.x, s._anchorMercatorCoordinate.y,
           s._anchorMercatorCoordinate.z⟩)
        (Matrix.FromArray m)) := by
  unfold _render
  simp [hc, hs, hm]

/-- C1 witness: the theorem evaluated on an attached overlay and the zero
host matrix. -/
theorem render_installs_world_times_projection_witness :
    attachedState._camera = true ∧ attachedState._scene = true ∧
    attachedState._map = true ∧
    (_render attachedState (fun _ => 0)).1.frozenProjectionMatrix =
      some (Matrix.multiply
        (Matrix.Compose
          ⟨attachedState._scale, attachedState._scale, attachedState._scale⟩
          (Quaternion.RotationYawPitchRoll (attachedState.rotationArray 1)
            (-(attachedState.rotationArray 0))
            (attachedState.rotationArray 2))
          ⟨attachedState._anchorMercatorCoordinate.x,
           attachedState._anchorMercatorCoordinate.y,
           attachedState._anchorMercatorCoordinate.z⟩)
        (Matrix.FromArray (fun _ => 0))) :=
  ⟨rfl, rfl, rfl,
    render_installs_world_times_projection attachedState (fun _ => 0)
      rfl rfl rfl⟩

/-- C5: when the camera, scene or map handle is absent (in particular on any
invocation before `onAdd` has run), `_render` returns with the state
untouched and performs no rendering-engine operation; the guard path runs no
fallible operation, so no exception is raised. -/
theorem render_guard_is_silent_noop
    (s : MapboxWebGLCustomLayer) (m : Fin 16 → ℝ)
    (h : s._camera = false ∨ s._scene = false ∨ s._map = false) :
    _render s m = (s, []) := by
  unfold _render
  rcases h with h | h | h <;> simp [h]

/-- C5 witness: the theorem evaluated on a freshly constructed overlay
(before attach) and the zero host matrix. -/
theorem render_guard_is_silent_noop_witness :
    sampleState._camera = false ∧
    _render sampleState (fun _ => 0) = (sampleState, []) :=
  ⟨rfl, render_guard_is_silent_noop sampleState (fun _ => 0) (Or.inl rfl)⟩

/-- C7: `setAnchor` updates only the `anchor` field; the cached mercator
anchor coordinate and the cached scale factor are unchanged, and every
subsequent `_render` call installs the same frozen projection matrix and
performs the same effects as before the call. -/
theorem setAnchor_updates_only_anchor
    (s : MapboxWebGLCustomLayer) (p : LatLngAltLike) :
    setAnchor s p = { s with anchor := some p } ∧
    (setAnchor s p)._scale = s._scale ∧
    (setAnchor s p)._anchorMercatorCoordinate =
      s._anchorMercatorCoordinate ∧
    ∀ m : Fin 16 → ℝ,
      (_render (setAnchor s p) m).1.frozenProjectionMatrix =
          (_render s m).1.frozenProjectionMatrix ∧
        (_render (setAnchor s p) m).2 = (_render s m).2 := by
  refine ⟨rfl, rfl, rfl, fun m => ?_⟩
  unfold _render setAnchor
  by_cases h : s._camera = false ∨ s._scene = false ∨ s._map = false
  · simp [h]
  · simp [h]

/-- C8 counterexample: on a freshly constructed overlay (map handle absent)
`requestRedraw` raises a `TypeError` — it is not a silent no-op, refuting
the claim's absent-handle clause. -/
theorem requestRedraw_without_map_raises :
    requestRedraw sampleState = Except.error JsException.typeError := by
  simp [requestRedraw, sampleState]

/-- C8 (amended): `requestRedraw` forwards to the host map's repaint trigger
when the map handle is set, and raises a `TypeError` (property access on
`undefined`) when the map handle is absent. -/
theorem requestRedraw_forwards_or_raises (s : MapboxWebGLCustomLayer) :
    (s._map = true → requestRedraw s = Except.ok [Effect.triggerRepaint]) ∧
    (s._map = false →
      requestRedraw s = Except.error JsException.typeError) := by
  constructor <;> intro h <;> simp [requestRedraw, h]

/-- C8 witness: the amended theorem evaluated on an overlay with the map
handle present. -/
theorem requestRedraw_forwards_or_raises_witness :
    requestRedraw { sampleState with _map := true } =
      Except.ok [Effect.triggerRepaint] :=
  (requestRedraw_forwards_or_raises { sampleState with _map := true }).1 rfl

/-- C6: for every string argument whose lower-casing is neither "y" nor "z",
`setUpAxis` does not throw (it is total), logs exactly one console warning,
and leaves the orientation-correction state — the `rotationInverse`
quaternion and the Euler triple `rotationArray` — identical to what a call
with "Y" produces (the default up vector `(0, 1, 0)`). -/
theorem setUpAxis_invalid_string_falls_back
    (s : MapboxWebGLCustomLayer) (a : String)
    (hy : toLowerCase a ≠ "y") (hz : toLowerCase a ≠ "z") :
    (setUpAxis s (UpAxisArg.str a)).1.rotationInverse =
        (setUpAxis s (UpAxisArg.str "Y")).1.rotationInverse ∧
      (setUpAxis s (UpAxisArg.str a)).1.rotationArray =
        (setUpAxis s (UpAxisArg.str "Y")).1.rotationArray ∧
      (setUpAxis s (UpAxisArg.str a)).2 =
        [Effect.consoleWarn
          ("invalid value " ++ a ++ " specified as upAxis")] ∧
      (setUpAxis s (UpAxisArg.str "Y")).2 = [] := by
  have hYy : toLowerCase "Y" = "y" := by decide
  have hYz : toLowerCase "Y" ≠ "z" := by decide
  unfold setUpAxis
  simp [hy, hz, hYy, hYz]

/-- C6 witness: the theorem evaluated at the invalid up-axis string "X" on a
freshly constructed overlay. -/
theorem setUpAxis_invalid_string_falls_back_witness :
    toLowerCase "X" ≠ "y" ∧ toLowerCase "X" ≠ "z" ∧
    ((setUpAxis sampleState (UpAxisArg.str "X")).1.rotationInverse =
        (setUpAxis sampleState (UpAxisArg.str "Y")).1.rotationInverse ∧
      (setUpAxis sampleState (UpAxisArg.str "X")).1.rotationArray =
        (setUpAxis sampleState (UpAxisArg.str "Y")).1.rotationArray ∧
      (setUpAxis sampleState (UpAxisArg.str "X")).2 =
        [Effect.consoleWarn
          ("invalid value " ++ "X" ++ " specified as upAxis")] ∧
      (setUpAxis sampleState (UpAxisArg.str "Y")).2 = []) :=
  ⟨by decide, by decide,
    setUpAxis_invalid_string_falls_back sampleState "X" (by decide)
      (by decide)⟩

end MapboxWebGLCustomLayer

/-- C3: the anchor identity — converting the anchor relative to itself gives
the exact zero vector. -/
theorem latLngToVector3Relative_anchor_identity (a : LatLngAltLike) :
    latLngToVector3Relative a a = ⟨0, 0, 0⟩ := by
  unfold latLngToVector3Relative Vector3.multiplyInPlace
  ext <;> simp

/-- C10: the reverse-direction anchor identity — a zero local offset maps
back exactly to the origin's geographic coordinates. -/
theorem vector3ToLatLng_zero_offset (o : LatLngAltLike) :
    vector3ToLatLng 0 0 o = ⟨o.lng, o.lat⟩ := by
  unfold vector3ToLatLng
  ext <;> simp

/-- C2: the inverse projection applied to the forward projection reproduces
the original latitude/longitude pair exactly over the reals, for every
latitude in (-90, 90) and longitude in [-180, 180]. -/
theorem xyToLatLng_latLngToXY_roundtrip (lat lng altitude : ℝ)
    (h1 : -90 < lat) (h2 : lat < 90) (h3 : -180 ≤ lng) (h4 : lng ≤ 180) :
    xyToLatLng (latLngToXY ⟨lat, lng, altitude⟩).1
        (latLngToXY ⟨lat, lng, altitude⟩).2 = ⟨lng, lat⟩ := by
  have hπ : (0:ℝ) < Real.pi := Real.pi_pos
  have hR : (EARTH_RADIUS : ℝ) ≠ 0 := by unfold EARTH_RADIUS; norm_num
  unfold xyToLatLng latLngToXY ToRadians ToDegrees
  simp only [LngLatLike.mk.injEq]
  constructor
  · -- longitude component
    field_simp
    ring
  · -- latitude component
    set θ : ℝ := 0.25 * Real.pi + 0.5 * (lat * Real.pi / 180) with hθdef
    have hθpos : 0 < θ := by
      rw [hθdef]
      nlinarith [mul_pos (show (0:ℝ) < lat + 90 by linarith) hπ]
    have hθlt : θ < Real.pi / 2 := by
      rw [hθdef]
      nlinarith [mul_pos (show (0:ℝ) < 90 - lat by linarith) hπ]
    have htan : 0 < Real.tan θ :=
      Real.tan_pos_of_pos_of_lt_pi_div_two hθpos hθlt
    have hdiv : -(EARTH_RADIUS * Real.log (Real.tan θ)) / EARTH_RADIUS =
        -Real.log (Real.tan θ) := by
      field_simp
      ring
    clear_value θ
    rw [hdiv, Real.exp_neg, Real.exp_log htan,
      show (Real.tan θ)⁻¹ = Real.tan (Real.pi / 2 - θ) from
        (Real.tan_pi_div_two_sub θ).symm,
      Real.arctan_tan (by linarith) (by linarith)]
    rw [hθdef]
    field_simp
    ring

/-- C2 witness: the round-trip theorem evaluated at the origin point. -/
theorem xyToLatLng_latLngToXY_roundtrip_witness :
    (-90 < (0:ℝ)) ∧ ((0:ℝ) < 90) ∧ (-180 ≤ (0:ℝ)) ∧ ((0:ℝ) ≤ 180) ∧
    xyToLatLng (latLngToXY ⟨0, 0, 0⟩).1 (latLngToXY ⟨0, 0, 0⟩).2 =
      ⟨0, 0⟩ :=
  ⟨by norm_num, by norm_num, by norm_num, by norm_num,
    xyToLatLng_latLngToXY_roundtrip 0 0 0 (by norm_num) (by norm_num)
      (by norm_num) (by norm_num)⟩

/-- C4: for anchor (-35.39847, 148.9819, 0) and point (-35.39847, 148.9820,
0), the local offset has x-magnitude within 1% of
`EARTH_RADIUS * radians(0.0001) * cos(radians(-35.39847))` (the two agree
exactly over the reals), y component 0 and z component 0. -/
theorem latLngToVector3Relative_concrete_scenario :
    abs (abs ((latLngToVector3Relative ⟨-35.39847, 148.9820, 0⟩
          ⟨-35.39847, 148.9819, 0⟩).x) -
        EARTH_RADIUS * ToRadians 0.0001 * Real.cos (ToRadians (-35.39847))) ≤
      0.01 * (EARTH_RADIUS * ToRadians 0.0001 *
        Real.cos (ToRadians (-35.39847))) ∧
    (latLngToVector3Relative ⟨-35.39847, 148.9820, 0⟩
      ⟨-35.39847, 148.9819, 0⟩).y = 0 ∧
    (latLngToVector3Relative ⟨-35.39847, 148.9820, 0⟩
      ⟨-35.39847, 148.9819, 0⟩).z = 0 := by
  have hπ : (0:ℝ) < Real.pi := Real.pi_pos
  have hcos : 0 ≤ Real.cos (ToRadians (-35.39847)) := by
    apply Real.cos_nonneg_of_mem_Icc
    constructor
    · unfold ToRadians; linarith
    · unfold ToRadians; linarith
  have hE : 0 ≤ EARTH_RADIUS * ToRadians 0.0001 *
      Real.cos (ToRadians (-35.39847)) := by
    apply mul_nonneg (mul_nonneg ?_ ?_) hcos
    · unfold EARTH_RADIUS; norm_num
    · unfold ToRadians; nlinarith
  have hx : (latLngToVector3Relative ⟨-35.39847, 148.9820, 0⟩
        ⟨-35.39847, 148.9819, 0⟩).x =
      EARTH_RADIUS * ToRadians 0.0001 * Real.cos (ToRadians (-35.39847)) := by
    unfold latLngToVector3Relative latLngToXY Vector3.multiplyInPlace
      ToRadians EARTH_RADIUS
    dsimp only
    ring_nf
  refine ⟨?_, ?_, ?_⟩
  · rw [hx, abs_of_nonneg hE, sub_self, abs_zero]
    nlinarith
  · unfold latLngToVector3Relative latLngToXY Vector3.multiplyInPlace
    dsimp only
    ring_nf
  · unfold latLngToVector3Relative latLngToXY Vector3.multiplyInPlace
    dsimp only
    norm_num

/-! Helper computations for the up-axis scenario. -/

lemma normalize_unit_z : Vector3.normalize ⟨0, 0, 1⟩ = ⟨0, 0, 1⟩ := by
  unfold Vector3.normalize Vector3.length Vector3.scaleInPlace
  ext <;> norm_num [Real.sqrt_one]

lemma normalize_unit_y : Vector3.normalize ⟨0, 1, 0⟩ = ⟨0, 1, 0⟩ := by
  unfold Vector3.normalize Vector3.length Vector3.scaleInPlace
  ext <;> norm_num [Real.sqrt_one]

lemma fromUnitVectors_z_up :
    Quaternion.FromUnitVectors ⟨0, 0, 1⟩ ⟨0, 1, 0⟩ =
      ⟨-(1 / Real.sqrt 2), 0, 0, 1 / Real.sqrt 2⟩ := by
  simp only [Quaternion.FromUnitVectors, Vector3.Dot, Vector3.Cross,
    Quaternion.Epsilon, Quaternion.normalize, Quaternion.length,
    Quaternion.lengthSquared, Quaternion.scale]
  rw [if_neg (by norm_num)]
  ext <;> norm_num

lemma fromUnitVectors_y_up :
    Quaternion.FromUnitVectors ⟨0, 1, 0⟩ ⟨0, 1, 0⟩ = ⟨0, 0, 0, 1⟩ := by
  have hsqrt4 : Real.sqrt 4 = 2 := by
    rw [show (4:ℝ) = 2 ^ 2 by norm_num, Real.sqrt_sq (by norm_num)]
  simp only [Quaternion.FromUnitVectors, Vector3.Dot, Vector3.Cross,
    Quaternion.Epsilon, Quaternion.normalize, Quaternion.length,
    Quaternion.lengthSquared, Quaternion.scale]
  rw [if_neg (by norm_num)]
  ext <;> norm_num [hsqrt4]

lemma invert_half_sqrt2 :
    (⟨-(1 / Real.sqrt 2), 0, 0, 1 / Real.sqrt 2⟩ : Quaternion).invert =
      ⟨1 / Real.sqrt 2, 0, 0, 1 / Real.sqrt 2⟩ := by
  have h2 : Real.sqrt 2 * Real.sqrt 2 = 2 := Real.mul_self_sqrt (by norm_num)
  have hhalf : (1 / Real.sqrt 2) * (1 / Real.sqrt 2) = (1:ℝ) / 2 := by
    rw [div_mul_div_comm, one_mul, h2]
  simp only [Quaternion.invert, Quaternion.conjugate, Quaternion.scale,
    Quaternion.lengthSquared, neg_neg, neg_zero]
  ext <;> rw [hhalf] <;> norm_num

lemma invert_identity_quat :
    (⟨0, 0, 0, 1⟩ : Quaternion).invert = ⟨0, 0, 0, 1⟩ := by
  simp only [Quaternion.invert, Quaternion.conjugate, Quaternion.scale,
    Quaternion.lengthSquared, neg_zero]
  ext <;> norm_num

lemma applyRotationQuaternion_identity (v : Vector3) :
    v.applyRotationQuaternion ⟨0, 0, 0, 1⟩ = v := by
  unfold Vector3.applyRotationQuaternion
  ext <;> dsimp only <;> ring

lemma afterUpAxisZ_rotationInverse :
    afterUpAxisZ.rotationInverse =
      ⟨1 / Real.sqrt 2, 0, 0, 1 / Real.sqrt 2⟩ := by
  have hZ : MapboxWebGLCustomLayer.toLowerCase "Z" = "z" := by decide
  unfold afterUpAxisZ MapboxWebGLCustomLayer.setUpAxis
  simp only [hZ, eq_self_iff_true, if_true]
  rw [normalize_unit_z, show DEFAULT_UP = (⟨0, 1, 0⟩ : Vector3) from rfl,
    fromUnitVectors_z_up, invert_half_sqrt2]

lemma afterUpAxisZY_rotationInverse :
    afterUpAxisZY.rotationInverse = ⟨0, 0, 0, 1⟩ := by
  have hY : MapboxWebGLCustomLayer.toLowerCase "Y" = "y" := by decide
  unfold afterUpAxisZY MapboxWebGLCustomLayer.setUpAxis
  simp only [hY, if_neg (by decide : ¬("y" = "z"))]
  rw [normalize_unit_y, show DEFAULT_UP = (⟨0, 1, 0⟩ : Vector3) from rfl,
    fromUnitVectors_y_up, invert_identity_quat]

lemma afterUpAxisZ_anchor : afterUpAxisZ.anchor = some ⟨0, 0, 0⟩ := rfl

lemma afterUpAxisZY_anchor : afterUpAxisZY.anchor = some ⟨0, 0, 0⟩ := rfl

lemma rel_upAxisTestPoint :
    latLngToVector3Relative upAxisTestPoint ⟨0, 0, 0⟩ = ⟨0, 0, 1⟩ := by
  unfold upAxisTestPoint latLngToVector3Relative latLngToXY
    Vector3.multiplyInPlace
  ext <;> simp

lemma conv_afterUpAxisZ :
    MapboxWebGLCustomLayer.latLngAltitudeToVector3Ref afterUpAxisZ
      upAxisTestPoint = Except.ok ⟨0, -1, 0⟩ := by
  have h2 : Real.sqrt 2 * Real.sqrt 2 = 2 := Real.mul_self_sqrt (by norm_num)
  have hc : 2 * ((1 / Real.sqrt 2) * (1 / Real.sqrt 2)) = (1:ℝ) := by
    rw [div_mul_div_comm, one_mul, h2]
    norm_num
  have happ : Vector3.applyRotationQuaternion ⟨0, 0, 1⟩
      ⟨1 / Real.sqrt 2, 0, 0, 1 / Real.sqrt 2⟩ = ⟨0, -1, 0⟩ := by
    unfold Vector3.applyRotationQuaternion
    ext
    · dsimp only; ring
    · dsimp only; linear_combination -hc
    · dsimp only; linear_combination -hc
  unfold MapboxWebGLCustomLayer.latLngAltitudeToVector3Ref
  simp only [afterUpAxisZ_anchor]
  rw [rel_upAxisTestPoint, afterUpAxisZ_rotationInverse, happ]

lemma conv_afterUpAxisZY :
    MapboxWebGLCustomLayer.latLngAltitudeToVector3Ref afterUpAxisZY
      upAxisTestPoint = Except.ok ⟨0, 0, 1⟩ := by
  unfold MapboxWebGLCustomLayer.latLngAltitudeToVector3Ref
  simp only [afterUpAxisZY_anchor]
  rw [rel_upAxisTestPoint, afterUpAxisZY_rotationInverse,
    applyRotationQuaternion_identity]

/-- C9 counterexample: in the `setUpAxis("Z")` then `setUpAxis("Y")`
scenario, the claim's conjunction fails, because the orientation-correction
quaternion produced by `setUpAxis("Y")` is exactly the identity quaternion
`(0, 0, 0, 1)` — it is not "different from the identity quaternion". -/
theorem setUpAxis_Z_then_Y_claim_fails :
    ¬(afterUpAxisZ.rotationInverse ≠ afterUpAxisZY.rotationInverse ∧
      afterUpAxisZ.rotationInverse ≠ ⟨0, 0, 0, 1⟩ ∧
      afterUpAxisZY.rotationInverse ≠ ⟨0, 0, 0, 1⟩ ∧
      MapboxWebGLCustomLayer.latLngAltitudeToVector3Ref afterUpAxisZ
          upAxisTestPoint ≠
        MapboxWebGLCustomLayer.latLngAltitudeToVector3Ref afterUpAxisZY
          upAxisTestPoint) := by
  intro h
  exact h.2.2.1 afterUpAxisZY_rotationInverse

/-- C9 (amended): `setUpAxis("Z")` then `setUpAxis("Y")` on the same
instance produces two different orientation-correction quaternions, the "Z"
one non-identity but the "Y" one equal to the identity quaternion, and
converting the same geographic test point via `latLngAltitudeToVector3Ref`
under the two settings yields two different (axis-swapped) vectors:
`(0, -1, 0)` under "Z" and `(0, 0, 1)` under "Y". -/
theorem setUpAxis_Z_then_Y_amended :
    afterUpAxisZ.rotationInverse ≠ afterUpAxisZY.rotationInverse ∧
    afterUpAxisZ.rotationInverse ≠ ⟨0, 0, 0, 1⟩ ∧
    afterUpAxisZY.rotationInverse = ⟨0, 0, 0, 1⟩ ∧
    MapboxWebGLCustomLayer.latLngAltitudeToVector3Ref afterUpAxisZ
        upAxisTestPoint = Except.ok ⟨0, -1, 0⟩ ∧
    MapboxWebGLCustomLayer.latLngAltitudeToVector3Ref afterUpAxisZY
        upAxisTestPoint = Except.ok ⟨0, 0, 1⟩ ∧
    MapboxWebGLCustomLayer.latLngAltitudeToVector3Ref afterUpAxisZ
        upAxisTestPoint ≠
      MapboxWebGLCustomLayer.latLngAltitudeToVector3Ref afterUpAxisZY
        upAxisTestPoint := by
  have hpos : (0:ℝ) < 1 / Real.sqrt 2 := by positivity
  refine ⟨?_, ?_, afterUpAxisZY_rotationInverse, conv_afterUpAxisZ,
    conv_afterUpAxisZY, ?_⟩
  · rw [afterUpAxisZ_rotationInverse, afterUpAxisZY_rotationInverse]
    intro h
    exact hpos.ne' (congrArg Quaternion.x h)
  · rw [afterUpAxisZ_rotationInverse]
    intro h
    exact hpos.ne' (congrArg Quaternion.x h)
  · rw [conv_afterUpAxisZ, conv_afterUpAxisZY]
    intro h
    have hy := congrArg (fun e => match e with
      | Except.ok v => Vector3.y v
      | Except.error _ => 0) h
    simp at hy

end MapboxBabylon

end
